import Mathlib

/-!
Shallow embedding of the order-construction and price-comparison logic of
PyXchange (src/src/order/Order.cpp), together with theorems checking the
natural-language specification against it.

`price_t`, `quantity_t` and `orderId_t` are all C `int` (src/src/PyXchange.hpp),
embedded as `Int`; the 32-bit range enters only through the sentinel values
`std::numeric_limits<int>::max()/min()` and through the well-formedness
predicate `Decoded.WF` stating that decoded integer fields are representable
as C `int`.
-/

namespace PyXchange

/-- Modelled from the spec: `side_t` together with `side::bid_`, `side::ask_`,
`side::isBid`, `side::isAsk` live in utils/Side.hpp, which is absent from the
sources; the spec describes Side as a two-valued tag {BID, ASK}. -/
inductive Side where
  | bid
  | ask
deriving DecidableEq, Repr

/-- One entry of the decoded python dict. Modelled from the spec:
`pyexc::translate` (utils/Exception.hpp, absent from the sources) turns a
python `KeyError` (missing key) or `TypeError` (value of the wrong type)
raised by `py::extract` into the typed error of the field; the spec words
this as "missing/wrong-typed field ⇒ error". -/
inductive Field (α : Type) where
  | missing
  | wrongType
  | val (a : α)
deriving DecidableEq, Repr

/-- The decoded message record: the four keys Order construction reads. -/
structure Decoded where
  side : Field String
  orderId : Field Int
  price : Field Int
  quantity : Field Int
deriving DecidableEq, Repr

deriving instance DecidableEq for Except

/-- The typed errors Order construction can raise (utils/Exception.hpp /
utils/Side.hpp, named in Order.cpp). -/
inductive OrderError where
  | WrongSide
  | OrderIdError
  | PriceError
  | QuantityError
deriving DecidableEq, Repr

/-- `std::numeric_limits<int>::max()` — the +∞ price sentinel of market BID
orders (Order.cpp line 146). -/
def intMax : Int := 2147483647

/-- `std::numeric_limits<int>::min()` — the −∞ price sentinel of market ASK
orders (Order.cpp line 150). -/
def intMin : Int := -2147483648

/-- A decoded `int` field is representable as a C `int`. -/
def Field.inIntRange : Field Int → Prop
  | .val n => intMin ≤ n ∧ n ≤ intMax
  | _ => True

/-- All integer fields of the record are representable as C `int`: any value
`py::extract<int>` actually yields satisfies this. -/
def Decoded.WF (d : Decoded) : Prop :=
  d.orderId.inIntRange ∧ d.price.inIntRange ∧ d.quantity.inIntRange

/-- `Order::extractSide` (Order.cpp lines 69-91): the translated python
errors and an unrecognised string all yield `WrongSide`. -/
def extractSide (d : Decoded) : Except OrderError Side :=
  match d.side with
  | .missing => .error .WrongSide
  | .wrongType => .error .WrongSide
  | .val s =>
      if s = "BUY" then .ok .bid
      else if s = "SELL" then .ok .ask
      else .error .WrongSide

/-- `Order::extractOrderId` (Order.cpp lines 100-118). -/
def extractOrderId (d : Decoded) : Except OrderError Int :=
  match d.orderId with
  | .missing => .error .OrderIdError
  | .wrongType => .error .OrderIdError
  | .val n => if n > 0 then .ok n else .error .OrderIdError

/-- `Order::extractPrice` (Order.cpp lines 127-156): market orders get the
side's sentinel without touching the record; limits decode the `price` key. -/
def extractPrice (isMarketOrder_ : Bool) (side_ : Side) (d : Decoded) :
    Except OrderError Int :=
  if isMarketOrder_ ∧ side_ = .bid then .ok intMax
  else if isMarketOrder_ ∧ side_ = .ask then .ok intMin
  else
    match d.price with
    | .missing => .error .PriceError
    | .wrongType => .error .PriceError
    | .val n => if n > 0 then .ok n else .error .PriceError

/-- `Order::extractQuantity` (Order.cpp lines 165-183). -/
def extractQuantity (d : Decoded) : Except OrderError Int :=
  match d.quantity with
  | .missing => .error .QuantityError
  | .wrongType => .error .QuantityError
  | .val n => if n > 0 then .ok n else .error .QuantityError

/-- The fields of `Order` the claims are about. The runtime handles `trader`
(a weak pointer) and `time` (a clock read at construction) are not read by
any of the embedded operations and are omitted. -/
structure Order where
  isMarketOrder : Bool
  side : Side
  orderId : Int
  price : Int
  quantity : Int
deriving DecidableEq, Repr

/-- `Order::Order` (Order.cpp lines 30-40): the initializer list evaluates
`extractSide`, then (for limits) `extractOrderId`, then `extractPrice`, then
`extractQuantity`; a thrown error aborts construction at that point. -/
def makeOrder (isMarketOrder_ : Bool) (d : Decoded) : Except OrderError Order :=
  match extractSide d with
  | .error e => .error e
  | .ok side_ =>
    match (if isMarketOrder_ then .ok 0 else extractOrderId d) with
    | .error e => .error e
    | .ok orderId_ =>
      match extractPrice isMarketOrder_ side_ d with
      | .error e => .error e
      | .ok price_ =>
        match extractQuantity d with
        | .error e => .error e
        | .ok quantity_ =>
            .ok ⟨isMarketOrder_, side_, orderId_, price_, quantity_⟩

/-- `Order::comparePrice` (Order.cpp lines 192-206). -/
def Order.comparePrice (self other : Order) : Bool :=
  if self.side = .bid ∧ other.side = .ask then
    decide (self.price ≥ other.price)
  else if self.side = .ask ∧ other.side = .bid then
    decide (self.price ≤ other.price)
  else
    false

/-- The `side` field fails extraction: missing key, wrong type, or a string
other than "BUY"/"SELL". -/
def badSideField : Field String → Bool
  | .missing => true
  | .wrongType => true
  | .val s => !(s == "BUY" || s == "SELL")

/-- An integer field fails extraction: missing key, wrong type, or value ≤ 0. -/
def badIntField : Field Int → Bool
  | .missing => true
  | .wrongType => true
  | .val n => decide (n ≤ 0)

theorem extractSide_ok {d : Decoded} {s : Side} (h : extractSide d = .ok s) :
    (d.side = .val "BUY" ∧ s = .bid) ∨ (d.side = .val "SELL" ∧ s = .ask) := by
  unfold extractSide at h
  split at h <;> simp_all
  split_ifs at h <;> simp_all

theorem extractSide_good {d : Decoded} (h : badSideField d.side = false) :
    (d.side = .val "BUY" ∧ extractSide d = .ok .bid) ∨
    (d.side = .val "SELL" ∧ extractSide d = .ok .ask) := by
  unfold badSideField at h
  unfold extractSide
  split at h <;> simp_all
  tauto

theorem extractOrderId_ok {d : Decoded} {n : Int}
    (h : extractOrderId d = .ok n) : d.orderId = .val n ∧ 0 < n := by
  unfold extractOrderId at h
  split at h <;> simp_all
  split_ifs at h <;> simp_all

theorem extractPrice_limit_ok {d : Decoded} {s : Side} {p : Int}
    (h : extractPrice false s d = .ok p) : d.price = .val p ∧ 0 < p := by
  unfold extractPrice at h
  simp only [Bool.false_eq_true, false_and, if_false] at h
  split at h <;> simp_all
  split_ifs at h <;> simp_all

theorem extractPrice_market (s : Side) (d : Decoded) :
    extractPrice true s d = .ok (if s = .bid then intMax else intMin) := by
  cases s <;> simp [extractPrice]

theorem extractQuantity_ok {d : Decoded} {q : Int}
    (h : extractQuantity d = .ok q) : d.quantity = .val q ∧ 0 < q := by
  unfold extractQuantity at h
  split at h <;> simp_all
  split_ifs at h <;> simp_all

theorem makeOrder_ok_inv {m : Bool} {d : Decoded} {o : Order}
    (h : makeOrder m d = .ok o) :
    o.isMarketOrder = m ∧
    extractSide d = .ok o.side ∧
    (m = true → o.orderId = 0) ∧
    (m = false → d.orderId = .val o.orderId ∧ 0 < o.orderId) ∧
    (m = true → o.price = (if o.side = .bid then intMax else intMin)) ∧
    (m = false → d.price = .val o.price ∧ 0 < o.price) ∧
    d.quantity = .val o.quantity ∧ 0 < o.quantity := by
  unfold makeOrder at h
  split at h
  · exact absurd h (by simp)
  case _ side_ hside =>
  split at h
  · exact absurd h (by simp)
  case _ orderId_ hid =>
  split at h
  · exact absurd h (by simp)
  case _ price_ hprice =>
  split at h
  · exact absurd h (by simp)
  case _ quantity_ hqty =>
  injection h with h
  subst h
  obtain ⟨hq1, hq2⟩ := extractQuantity_ok hqty
  cases m
  · rw [if_neg (by simp)] at hid
    obtain ⟨hi1, hi2⟩ := extractOrderId_ok hid
    obtain ⟨hp1, hp2⟩ := extractPrice_limit_ok hprice
    exact ⟨rfl, hside, by simp, fun _ => ⟨hi1, hi2⟩, by simp, fun _ => ⟨hp1, hp2⟩,
      hq1, hq2⟩
  · rw [if_pos rfl] at hid
    injection hid with hid
    rw [extractPrice_market side_ d] at hprice
    injection hprice with hprice
    exact ⟨rfl, hside, fun _ => hid.symm, by simp, fun _ => hprice.symm, by simp,
      hq1, hq2⟩

theorem makeOrder_market_ok {d : Decoded} {s : Side} {q : Int}
    (hs : extractSide d = .ok s) (hq : extractQuantity d = .ok q) :
    makeOrder true d = .ok ⟨true, s, 0, if s = .bid then intMax else intMin, q⟩ := by
  have h1 := extractSide_ok hs
  have h2 := extractQuantity_ok hq
  rcases d with ⟨sf, idf, pf, qf⟩
  rcases h1 with ⟨hsf, rfl⟩ | ⟨hsf, rfl⟩ <;> rcases h2 with ⟨hqf, hq2⟩ <;>
    simp only at hsf hqf <;> subst hsf <;> subst hqf <;>
    simp [makeOrder, extractSide, extractPrice, extractQuantity, hq2]

theorem makeOrder_market_ignores (d : Decoded) (idf pf : Field Int) :
    makeOrder true { d with orderId := idf, price := pf } = makeOrder true d := by
  rcases d with ⟨sf, idf0, pf0, qf⟩
  cases sf <;>
    simp [makeOrder, extractSide, extractPrice, extractQuantity] <;>
    split_ifs <;> simp_all

set_option maxHeartbeats 1600000 in
theorem makeOrder_error_char (m : Bool) (d : Decoded) :
    (makeOrder m d = .error .WrongSide ↔ badSideField d.side = true) ∧
    (makeOrder m d = .error .OrderIdError ↔
      m = false ∧ badSideField d.side = false ∧ badIntField d.orderId = true) ∧
    (makeOrder m d = .error .PriceError ↔
      m = false ∧ badSideField d.side = false ∧ badIntField d.orderId = false ∧
        badIntField d.price = true) ∧
    (makeOrder m d = .error .QuantityError ↔
      badSideField d.side = false ∧
        (m = true ∨ (badIntField d.orderId = false ∧ badIntField d.price = false)) ∧
        badIntField d.quantity = true) := by
  rcases d with ⟨sf, idf, pf, qf⟩
  cases m <;> cases sf <;> cases idf <;> cases pf <;> cases qf
  all_goals simp [makeOrder, extractSide, extractOrderId, extractPrice,
    extractQuantity, badSideField, badIntField]
  all_goals (try split_ifs)
  all_goals (try simp_all)
  all_goals omega

/-- C1: `Order::comparePrice(own, resting)` on opposite sides returns true iff
the prices cross: a BID own against a resting ASK iff own.price ≥ resting.price,
an ASK own against a resting BID iff own.price ≤ resting.price. -/
theorem comparePrice_crosses_iff (own resting : Order) :
    (own.side = .bid → resting.side = .ask →
      (own.comparePrice resting = true ↔ own.price ≥ resting.price)) ∧
    (own.side = .ask → resting.side = .bid →
      (own.comparePrice resting = true ↔ own.price ≤ resting.price)) := by
  constructor <;> intro h1 h2 <;> simp [Order.comparePrice, h1, h2]

/-- Witness for C1: a bid at 100 against an ask at 99 crosses. -/
theorem comparePrice_crosses_iff_witness :
    Order.comparePrice ⟨false, .bid, 1, 100, 5⟩ ⟨false, .ask, 2, 99, 7⟩ = true ↔
      (⟨false, .bid, 1, 100, 5⟩ : Order).price ≥
        (⟨false, .ask, 2, 99, 7⟩ : Order).price :=
  (comparePrice_crosses_iff ⟨false, .bid, 1, 100, 5⟩ ⟨false, .ask, 2, 99, 7⟩).1 rfl rfl

/-- C2: every successfully constructed market order has price `intMax` when its
side is BID, price `intMin` when its side is ASK, and orderId 0. -/
theorem makeOrder_market_sentinel (d : Decoded) (o : Order)
    (h : makeOrder true d = .ok o) :
    (o.side = .bid → o.price = intMax) ∧ (o.side = .ask → o.price = intMin) ∧
    o.orderId = 0 := by
  obtain ⟨-, -, hid, -, hpr, -, -, -⟩ := makeOrder_ok_inv h
  refine ⟨?_, ?_, hid rfl⟩ <;> intro hs <;> simp [hpr rfl, hs]

/-- Witness for C2: a market BUY of quantity 5 constructs with price `intMax`
and orderId 0. -/
theorem makeOrder_market_sentinel_witness :
    ((⟨true, .bid, 0, intMax, 5⟩ : Order).side = .bid →
      (⟨true, .bid, 0, intMax, 5⟩ : Order).price = intMax) ∧
    ((⟨true, .bid, 0, intMax, 5⟩ : Order).side = .ask →
      (⟨true, .bid, 0, intMax, 5⟩ : Order).price = intMin) ∧
    (⟨true, .bid, 0, intMax, 5⟩ : Order).orderId = 0 :=
  makeOrder_market_sentinel ⟨.val "BUY", .missing, .missing, .val 5⟩
    ⟨true, .bid, 0, intMax, 5⟩ (by decide)

/-- C9: `Order::comparePrice` on two orders of the same side is false, whatever
the prices; in particular an order never crosses itself. -/
theorem comparePrice_same_side (a b : Order) (h : a.side = b.side) :
    a.comparePrice b = false ∧ a.comparePrice a = false := by
  cases hs : a.side <;> cases hs2 : b.side <;> simp_all [Order.comparePrice]

/-- Witness for C9: two bids do not cross even though 100 ≥ 50. -/
theorem comparePrice_same_side_witness :
    Order.comparePrice ⟨false, .bid, 1, 50, 5⟩ ⟨false, .bid, 2, 100, 5⟩ = false ∧
    Order.comparePrice ⟨false, .bid, 1, 50, 5⟩ ⟨false, .bid, 1, 50, 5⟩ = false :=
  comparePrice_same_side ⟨false, .bid, 1, 50, 5⟩ ⟨false, .bid, 2, 100, 5⟩ rfl

/-- C10: when several fields are invalid, construction reports the error of the
first invalid field in the fixed order side, orderId, price, quantity: each
typed error occurs iff its own field is bad and every field checked before it
is good (orderId and price are only checked on limit orders). -/
theorem makeOrder_first_error (m : Bool) (d : Decoded) :
    (makeOrder m d = .error .WrongSide ↔ badSideField d.side = true) ∧
    (makeOrder m d = .error .OrderIdError ↔
      m = false ∧ badSideField d.side = false ∧ badIntField d.orderId = true) ∧
    (makeOrder m d = .error .PriceError ↔
      m = false ∧ badSideField d.side = false ∧ badIntField d.orderId = false ∧
        badIntField d.price = true) ∧
    (makeOrder m d = .error .QuantityError ↔
      badSideField d.side = false ∧
        (m = true ∨ (badIntField d.orderId = false ∧ badIntField d.price = false)) ∧
        badIntField d.quantity = true) :=
  makeOrder_error_char m d

/-- C3: a market order crosses every limit order on the opposite side: the
+∞/−∞ sentinel makes `Order::comparePrice` true against any representable
resting price. -/
theorem makeOrder_market_crosses (dm dr : Decoded) (m r : Order)
    (hm : makeOrder true dm = .ok m) (hr : makeOrder false dr = .ok r)
    (hwf : dr.WF) (hside : m.side ≠ r.side) :
    m.comparePrice r = true := by
  obtain ⟨-, -, -, -, hmp, -, -, -⟩ := makeOrder_ok_inv hm
  obtain ⟨-, -, -, -, -, hrp, -, -⟩ := makeOrder_ok_inv hr
  obtain ⟨hp1, hp2⟩ := hrp rfl
  obtain ⟨-, hwp, -⟩ := hwf
  rw [hp1] at hwp
  simp only [Field.inIntRange] at hwp
  have hmp' := hmp rfl
  cases hsm : m.side <;> cases hsr : r.side
  · exact absurd (hsm.trans hsr.symm) hside
  · rw [hsm] at hmp'
    simp at hmp'
    simp [Order.comparePrice, hsm, hsr, hmp', hwp.2]
  · rw [hsm] at hmp'
    simp at hmp'
    simp [Order.comparePrice, hsm, hsr, hmp', hwp.1]
  · exact absurd (hsm.trans hsr.symm) hside

/-- Witness for C3: a market BUY crosses a resting ask at 100. -/
theorem makeOrder_market_crosses_witness :
    Order.comparePrice ⟨true, .bid, 0, intMax, 3⟩ ⟨false, .ask, 1, 100, 2⟩ = true :=
  makeOrder_market_crosses ⟨.val "BUY", .missing, .missing, .val 3⟩
    ⟨.val "SELL", .val 1, .val 100, .val 2⟩
    ⟨true, .bid, 0, intMax, 3⟩ ⟨false, .ask, 1, 100, 2⟩
    (by decide) (by decide)
    (by norm_num [Decoded.WF, Field.inIntRange, intMin, intMax]) (by decide)

/-- C4: market-order construction never reads the orderId or price fields and
never raises OrderIdError or PriceError; a record with a valid side and a
valid quantity constructs, with price set to the side's sentinel. -/
theorem makeOrder_market_skips_id_price (d : Decoded) :
    (∀ idf pf, makeOrder true { d with orderId := idf, price := pf } =
      makeOrder true d) ∧
    makeOrder true d ≠ .error .OrderIdError ∧
    makeOrder true d ≠ .error .PriceError ∧
    (∀ s q, extractSide d = .ok s → extractQuantity d = .ok q →
      makeOrder true d = .ok ⟨true, s, 0, if s = .bid then intMax else intMin, q⟩) := by
  refine ⟨fun idf pf => makeOrder_market_ignores d idf pf, ?_, ?_, ?_⟩
  · intro hcon
    have h2 := ((makeOrder_error_char true d).2.1).mp hcon
    simp at h2
  · intro hcon
    have h2 := ((makeOrder_error_char true d).2.2.1).mp hcon
    simp at h2
  · intro s q hs hq
    exact makeOrder_market_ok hs hq

/-- Witness for C4: a market SELL with garbage orderId and price fields
constructs with the −∞ sentinel. -/
theorem makeOrder_market_skips_id_price_witness :
    makeOrder true ⟨.val "SELL", .wrongType, .wrongType, .val 7⟩ =
      .ok ⟨true, .ask, 0, if Side.ask = Side.bid then intMax else intMin, 7⟩ :=
  (makeOrder_market_skips_id_price ⟨.val "SELL", .wrongType, .wrongType, .val 7⟩).2.2.2
    .ask 7 (by decide) (by decide)

/-- C5: construction raises WrongSide iff the side field is missing,
wrong-typed, or a string other than "BUY"/"SELL"; on success the side is BID
for "BUY" and ASK for "SELL". -/
theorem makeOrder_wrong_side_iff (m : Bool) (d : Decoded) :
    (makeOrder m d = .error .WrongSide ↔ badSideField d.side = true) ∧
    (∀ o, makeOrder m d = .ok o →
      (d.side = .val "BUY" → o.side = .bid) ∧
      (d.side = .val "SELL" → o.side = .ask)) := by
  refine ⟨(makeOrder_error_char m d).1, ?_⟩
  intro o ho
  obtain ⟨-, hside, -, -, -, -, -, -⟩ := makeOrder_ok_inv ho
  rcases extractSide_ok hside with ⟨hb, hs⟩ | ⟨hb, hs⟩
  · exact ⟨fun _ => hs, fun hc => absurd (hb.symm.trans hc) (by decide)⟩
  · exact ⟨fun hc => absurd (hb.symm.trans hc) (by decide), fun _ => hs⟩

/-- Witness for C5: side "BUY" yields a BID order. -/
theorem makeOrder_wrong_side_iff_witness :
    (⟨false, .bid, 1, 100, 5⟩ : Order).side = .bid :=
  ((makeOrder_wrong_side_iff false ⟨.val "BUY", .val 1, .val 100, .val 5⟩).2
    ⟨false, .bid, 1, 100, 5⟩ (by decide)).1 rfl

/-- C6: on a limit record with a valid side, construction raises OrderIdError
iff the orderId field is missing, wrong-typed or ≤ 0; on success the order's
orderId equals the record's and is positive. -/
theorem makeOrder_order_id_iff (d : Decoded) (hs : badSideField d.side = false) :
    (makeOrder false d = .error .OrderIdError ↔ badIntField d.orderId = true) ∧
    (∀ o, makeOrder false d = .ok o → d.orderId = .val o.orderId ∧ 0 < o.orderId) := by
  constructor
  · rw [(makeOrder_error_char false d).2.1]
    simp [hs]
  · intro o ho
    obtain ⟨-, -, -, hid, -, -, -, -⟩ := makeOrder_ok_inv ho
    exact hid rfl

/-- Witness for C6: orderId 9 is kept and positive. -/
theorem makeOrder_order_id_iff_witness :
    (⟨.val "BUY", .val 9, .val 100, .val 5⟩ : Decoded).orderId =
      .val (⟨false, .bid, 9, 100, 5⟩ : Order).orderId ∧
    0 < (⟨false, .bid, 9, 100, 5⟩ : Order).orderId :=
  (makeOrder_order_id_iff ⟨.val "BUY", .val 9, .val 100, .val 5⟩ (by decide)).2
    ⟨false, .bid, 9, 100, 5⟩ (by decide)

/-- C7: on a limit record with valid side and orderId, construction raises
PriceError iff the price field is missing, wrong-typed or ≤ 0; on success the
order's price equals the record's and is positive. -/
theorem makeOrder_price_iff (d : Decoded) (hs : badSideField d.side = false)
    (hid : badIntField d.orderId = false) :
    (makeOrder false d = .error .PriceError ↔ badIntField d.price = true) ∧
    (∀ o, makeOrder false d = .ok o → d.price = .val o.price ∧ 0 < o.price) := by
  constructor
  · rw [(makeOrder_error_char false d).2.2.1]
    simp [hs, hid]
  · intro o ho
    obtain ⟨-, -, -, -, -, hpr, -, -⟩ := makeOrder_ok_inv ho
    exact hpr rfl

/-- Witness for C7: price 100 is kept and positive. -/
theorem makeOrder_price_iff_witness :
    (⟨.val "SELL", .val 2, .val 100, .val 5⟩ : Decoded).price =
      .val (⟨false, .ask, 2, 100, 5⟩ : Order).price ∧
    0 < (⟨false, .ask, 2, 100, 5⟩ : Order).price :=
  (makeOrder_price_iff ⟨.val "SELL", .val 2, .val 100, .val 5⟩ (by decide)
    (by decide)).2 ⟨false, .ask, 2, 100, 5⟩ (by decide)

/-- C8: once the earlier fields are valid (side, and for limits also orderId
and price), construction raises QuantityError iff the quantity field is
missing, wrong-typed or ≤ 0; on success the order's quantity equals the
record's and is positive. -/
theorem makeOrder_quantity_iff (m : Bool) (d : Decoded)
    (hs : badSideField d.side = false)
    (hid : m = false → badIntField d.orderId = false)
    (hpr : m = false → badIntField d.price = false) :
    (makeOrder m d = .error .QuantityError ↔ badIntField d.quantity = true) ∧
    (∀ o, makeOrder m d = .ok o → d.quantity = .val o.quantity ∧ 0 < o.quantity) := by
  constructor
  · rw [(makeOrder_error_char m d).2.2.2]
    cases m
    · simp [hs, hid rfl, hpr rfl]
    · simp [hs]
  · intro o ho
    obtain ⟨-, -, -, -, -, -, hq1, hq2⟩ := makeOrder_ok_inv ho
    exact ⟨hq1, hq2⟩

/-- Witness for C8: a market SELL of quantity 4 keeps its quantity. -/
theorem makeOrder_quantity_iff_witness :
    (⟨.val "SELL", .missing, .missing, .val 4⟩ : Decoded).quantity =
      .val (⟨true, .ask, 0, intMin, 4⟩ : Order).quantity ∧
    0 < (⟨true, .ask, 0, intMin, 4⟩ : Order).quantity :=
  (makeOrder_quantity_iff true ⟨.val "SELL", .missing, .missing, .val 4⟩
    (by decide) (by simp) (by simp)).2 ⟨true, .ask, 0, intMin, 4⟩ (by decide)

end PyXchange
